import Mathlib

/-
Verification development for the batch download cache in
youtube_dl/utility/batch_download.py.

The model is a shallow embedding of the cache manager
(class BatchFileDownloadCache) and the worker commit/fetch logic
(class DownloadWorker):

* Byte strings are lists of naturals (one entry per byte).
* The sqlite table is a list of rows in insertion (rowid) order;
  "fetchone" on a SELECT is the first matching row, DELETE removes all
  matching rows, and each db_conn.commit() call bumps a commit counter.
* The filesystem is a finite map from full path strings to file
  contents; a directory exists where some stored file lies strictly
  below it, and the cache root exists by the constructor's assertion.
  cache_put models each of the source's failure paths: the
  "assert os.path.isdir(file_folder)" raises when a regular file sits
  at the folder path itself, os.makedirs raises NotADirectoryError when
  a regular file occupies a proper ancestor of the folder path, and
  open(file_path, "wb") raises IsADirectoryError when the blob path is
  an existing directory. Leftover empty directories (eviction removes
  files only, so directories linger) are not tracked; a lingering empty
  directory makes no modelled check behave differently except that an
  empty directory sitting exactly at a future blob path, which would
  fail the open, is not representable.
* Timestamps: gmt_created is stored as text via
  strftime("%Y-%m-%dT%H:%M:%SZ") and read back via strptime with the
  same format, an order-preserving bijection with UTC datetimes, so the
  model stores seconds-since-epoch as a Nat and the TTL comparison
  "strptime(gmt_created) + timedelta(days=CACHE_VALID_DAYS) < utcnow()"
  becomes "gmt_created + CACHE_VALID_DAYS * 86400 < now".
* The md5 hexdigest used as content checksum is an external library
  function; the model is parametric in a checksum function
  cksum : ByteData -> String.
* cache_get builds its SELECT/DELETE by interpolating the URL into a
  double-quoted token. sqlite lexes that token as a string literal
  ending at the next double-quote, and — by its documented fallback —
  resolves a quote-free token that names an in-scope identifier (the
  table name or a column name such as url) as that identifier rather
  than as a literal. The state-level model gives the query its
  equality-match meaning, which is faithful for URLs that contain no
  double-quote and name no in-scope identifier — in particular for
  every URL the safety predicate admits, and for every url value a row
  can carry in a reachable state (rows are created only by cache_put on
  whitelisted URLs). The string-level construction and the token
  resolution are embedded separately (sql_select_where_url,
  sql_delete_where_url, readQuotedLiteral, interpolatedWhereRows) to
  settle the query-shape claims.
-/

namespace BatchDownload

/-- Byte strings (Python bytes) as lists of naturals. -/
abbrev ByteData := List Nat

/-- BatchFileDownloadCache.CACHE_VALID_DAYS. -/
def CACHE_VALID_DAYS : Nat := 3

/-- Seconds per day, used to express timedelta(days=n) over Nat seconds. -/
def secondsPerDay : Nat := 86400

/-- Python str.startswith, on the character sequence of the strings.
(The library String.startsWith computes over byte positions, which the
kernel cannot reduce; this characterwise version is extensionally the
same function and fully reducible.) -/
def strStartsWith (s pre : String) : Bool :=
  s.data.take pre.data.length == pre.data

/-- Python slicing s[n:] at character index n. -/
def strDrop (s : String) (n : Nat) : String :=
  ⟨s.data.drop n⟩

/-- The characterwise whitelist from the loop body of
is_url_valid_and_safe: lowercase, uppercase, digits, or one of the
characters in the Python literal "/=-_:,.". -/
def isAllowedUrlChar (c : Char) : Bool :=
  decide (('a' ≤ c ∧ c ≤ 'z') ∨ ('A' ≤ c ∧ c ≤ 'Z') ∨ ('0' ≤ c ∧ c ≤ '9'))
    || "/=-_:,.".data.contains c

/-- The slice url[url.index("://")+3:]. For a URL that starts with
"http://" or "https://" the first occurrence of "://" ends the scheme,
so the slice drops exactly the scheme (7 or 8 characters). Both call
sites (is_url_valid_and_safe and cache_put) only evaluate this after the
startswith check has passed. -/
def restAfterScheme (url : String) : String :=
  if strStartsWith url "http://" then strDrop url 7 else strDrop url 8

/-- BatchFileDownloadCache.is_url_valid_and_safe. -/
def is_url_valid_and_safe (url : String) : Bool :=
  if !(strStartsWith url "http://" || strStartsWith url "https://") then false
  else (restAfterScheme url).data.all isAllowedUrlChar

/-- One row of the cache table: (ID, gmt_created, url, file_path_relative,
file_length). The autoincrement ID is represented by the position of the
row in the table list. -/
structure Row where
  gmt_created : Nat
  url : String
  file_path_relative : String
  file_length : Nat
deriving DecidableEq

/-- State owned by one BatchFileDownloadCache instance: the cache root
directory (self.prefix in the source), the sqlite table contents, the
files on disk, the current UTC time, and a counter of commit() calls. -/
structure CacheState where
  cacheRoot : String
  table : List Row
  fs : List (String × ByteData)
  now : Nat
  commits : Nat
deriving DecidableEq

/-- Write a whole file: open(file_path, "wb") followed by write(data). -/
def fsWrite (fs : List (String × ByteData)) (p : String) (d : ByteData) :
    List (String × ByteData) :=
  (p, d) :: fs.filter (fun e => !(e.1 == p))

/-- file_path.split("/")[-1]: the characters after the last slash. -/
def lastPathComponent (p : String) : String :=
  ⟨(p.data.reverse.takeWhile (fun c => c != '/')).reverse⟩

/-- Splitting a character sequence on the slash separator (Python
s.split("/")), used to speak about the path components of a derived
relative path. -/
def splitOnSlash : List Char → List (List Char)
  | [] => [[]]
  | c :: cs =>
    let r := splitOnSlash cs
    if c = '/' then [] :: r
    else (c :: r.headD []) :: r.tail

/-- The path components of a string, as character lists. -/
def pathComponents (s : String) : List (List Char) :=
  splitOnSlash s.data

/-- The tail of cache_get when drop_it ends up true: DELETE all rows for
the url, commit, and os.remove the file if it is present. -/
def evict (st : CacheState) (url : String) (file_path : String) : CacheState :=
  { st with
    table := st.table.filter (fun r => !(r.url == url)),
    fs := st.fs.filter (fun e => !(e.1 == file_path)),
    commits := st.commits + 1 }

/-- BatchFileDownloadCache.cache_get. Returns the data (or none) and the
resulting state. The interpolated SELECT is given its equality-match
meaning, faithful for URLs that contain no double-quote and name no
in-scope identifier (see the query-shape development below; rows only
carry whitelisted http(s) urls in reachable states, so the readings
agree there). Control flow follows the source: fetchone; TTL check
sets drop_it; a missing file sets drop_it; otherwise the file is read
and a length mismatch, or (when verify_checksum) a checksum/filename
mismatch, sets drop_it; drop_it triggers eviction, else the data is
returned with no state change. -/
def cache_get (cksum : ByteData → String) (st : CacheState) (url : String)
    (drop_it : Bool) (verify_checksum : Bool) : Option ByteData × CacheState :=
  match st.table.find? (fun r => r.url == url) with
  | none => (none, st)
  | some r =>
    let expired := decide (r.gmt_created + CACHE_VALID_DAYS * secondsPerDay < st.now)
    let file_path := st.cacheRoot ++ "/" ++ r.file_path_relative
    match st.fs.lookup file_path with
    | none => (none, evict st url file_path)
    | some data =>
      if drop_it || expired then (none, evict st url file_path)
      else
        let broken := (data.length != r.file_length)
          || (verify_checksum && (cksum data != lastPathComponent file_path))
        if broken then (none, evict st url file_path)
        else (some data, st)

/-- BatchFileDownloadCache.cache_drop: cache_get with drop_it=True,
result discarded. -/
def cache_drop (cksum : ByteData → String) (st : CacheState) (url : String) :
    CacheState :=
  (cache_get cksum st url true true).2

/-- A directory exists at path p exactly when some stored file lies
strictly below it: the model tracks regular files, and directories are
their ancestors (plus the cache root, whose existence the constructor
asserts). -/
def dirExists (fs : List (String × ByteData)) (p : String) : Bool :=
  fs.any (fun e => (p ++ "/").data.isPrefixOf e.1.data)

/-- The ancestor paths os.makedirs walks through while creating
root/rel: one path for every slash boundary inside rel. os.makedirs
raises NotADirectoryError when a regular file occupies one of them. -/
def folderPrefixes (root rel : String) : List String :=
  (List.range rel.data.length).filterMap (fun i =>
    if rel.data[i]? = some '/' then some (root ++ "/" ++ (⟨rel.data.take i⟩ : String))
    else none)

/-- BatchFileDownloadCache.cache_put. Returns none when the body
raises: the "assert os.path.isdir(file_folder)" fires when a regular
file occupies the folder path itself; os.makedirs raises
NotADirectoryError when the folder does not yet exist and a regular
file occupies one of its proper ancestors; open(file_path, "wb")
raises IsADirectoryError when the blob path is an existing directory.
Empty data and unsafe URLs are refused silently (state returned
unchanged, as the source logs and returns). -/
def cache_put (cksum : ByteData → String) (st : CacheState) (url : String)
    (data : ByteData) : Option CacheState :=
  if data.length == 0 then some st
  else if !is_url_valid_and_safe url then some st
  else
    let t := st.now
    let file_folder_relative := restAfterScheme url
    let file_folder := st.cacheRoot ++ "/" ++ file_folder_relative
    if (st.fs.lookup file_folder).isSome then none
    else if !(dirExists st.fs file_folder)
        && (folderPrefixes st.cacheRoot file_folder_relative).any
          (fun q => (st.fs.lookup q).isSome) then none
    else
      let file_name := cksum data
      let file_path_relative := file_folder_relative ++ "/" ++ file_name
      let file_path := file_folder ++ "/" ++ file_name
      if dirExists st.fs file_path then none
      else
        some { st with
          fs := fsWrite st.fs file_path data,
          table := st.table ++ [⟨t, url, file_path_relative, data.length⟩],
          commits := st.commits + 1 }

/-- The full path cache_put writes to, as a standalone expression:
(prefix + "/" + file_folder_relative) + "/" + checksum. -/
def putFilePath (cksum : ByteData → String) (st : CacheState) (url : String)
    (data : ByteData) : String :=
  (st.cacheRoot ++ "/" ++ restAfterScheme url) ++ "/" ++ cksum data

/-
DownloadWorker.commit_job. The class attribute queue_cache_mgr is a
gevent queue used as a single-slot handoff buffer: it holds the one
cache manager when no worker is in its critical section. The slot is
modelled as Option CacheState: some mgr = the permit (carrying the
manager state) is in the buffer, none = some worker holds it or it has
been lost. commit_job's polling loop (get with timeout / Empty /
continue) terminates exactly when the permit is available, so the model
takes the slot content as input and returns the slot content after the
call: on a successful cache_put the manager is put back; when cache_put
raises, the source logs and returns WITHOUT the queue put, so the slot
stays empty.
-/

/-- DownloadWorker.commit_job, as a transformer of the single-slot
buffer holding the cache manager. -/
def commit_job (cksum : ByteData → String) (slot : Option CacheState)
    (url : String) (data : ByteData) : Option CacheState :=
  match slot with
  | none => none
  | some mgr =>
    match cache_put cksum mgr url data with
    | none => none
    | some mgr2 => some mgr2

/-- Outcome of one session.get attempt, indexed by attempt number: the
request either completes with an HTTP status code and body, or raises a
transport-level exception. -/
inductive FetchOutcome where
  | success (code : Nat) (body : ByteData)
  | failure
deriving DecidableEq

/-- The retry loop inside DownloadWorker.download: "tries = 5; while
True: try request; break on completion; except: tries -= 1; raise when
tries == 0". First argument after the outcome oracle is the remaining
tries counter, second is the number of attempts already made. Returns
ok (total attempts, status code, body) when a request completes, and
error (total attempts) for the RuntimeError after retry exhaustion.
The source enters the loop with tries = 5, so the 0 case is never
reached from the entry point run_job. -/
def fetch_with_retries (outcome : Nat → FetchOutcome) :
    Nat → Nat → Except Nat (Nat × Nat × ByteData)
  | 0, attempts => Except.error attempts
  | tries + 1, attempts =>
    match outcome attempts with
    | FetchOutcome.success code body => Except.ok (attempts + 1, code, body)
    | FetchOutcome.failure =>
      if tries == 0 then Except.error (attempts + 1)
      else fetch_with_retries outcome tries (attempts + 1)

/-- One job as processed by DownloadWorker.download: the request loop
starts with tries = 5; a 200 response is committed through commit_job,
any other status is logged and discarded, and retry exhaustion raises
out of the worker loop before any cache interaction. Returns the
request result (error n = fatal RuntimeError after n attempts) and the
state of the cache-manager slot afterwards. -/
def process_job (cksum : ByteData → String) (outcome : Nat → FetchOutcome)
    (slot : Option CacheState) (url : String) :
    Except Nat (Nat × Nat) × Option CacheState :=
  match fetch_with_retries outcome 5 0 with
  | Except.error n => (Except.error n, slot)
  | Except.ok (n, code, body) =>
    if code == 200 then (Except.ok (n, code), commit_job cksum slot url body)
    else (Except.ok (n, code), slot)

/-
String-level embedding of the query construction in cache_get:
  "SELECT * FROM %s WHERE url = \x22%s\x22" % (table, url)
  "DELETE FROM %s WHERE url = \x22%s\x22" % (table, url)
together with the way a SQL lexer reads the double-quoted literal back
out of the constructed text: the literal is everything up to the next
double-quote, and whatever follows that quote is query structure.
-/

/-- The SELECT statement cache_get interpolates the url into. -/
def sql_select_where_url (tbl url : String) : String :=
  "SELECT * FROM " ++ tbl ++ " WHERE url = \"" ++ url ++ "\""

/-- The DELETE statement cache_get interpolates the url into. -/
def sql_delete_where_url (tbl url : String) : String :=
  "DELETE FROM " ++ tbl ++ " WHERE url = \"" ++ url ++ "\""

/-- Reading a double-quoted literal: the input starts right after the
opening quote; the result is the literal content and the remaining
characters after the closing quote. -/
def readQuotedLiteral : List Char → List Char × List Char
  | [] => ([], [])
  | c :: cs =>
    if c = '"' then ([], cs)
    else
      let r := readQuotedLiteral cs
      (c :: r.1, r.2)

/-- The identifiers in scope for the interpolated query: the table name
and the column names of sql_tpl_create_table. By sqlite's documented
double-quote fallback, a double-quoted token equal to one of these is
resolved as an identifier, not as a string literal. -/
def sqlIdentifiers (tbl : String) : List String :=
  [tbl, "ID", "gmt_created", "url", "file_path_relative", "file_length"]

/-- Modelled from sqlite's documented double-quote fallback (the spec
directs the Index to treat the URL as untrusted for exactly this
reason): the rows selected by the interpolated condition on a token
that itself contains no double-quote. The token "url" resolves to the
url column, making the condition url = url, true of every row; a token
naming another in-scope identifier becomes a cross-column comparison,
left unmodelled (none); any other token is a string literal compared
against the url column. -/
def interpolatedWhereRows (tbl tok : String) (table : List Row) :
    Option (List Row) :=
  if tok == "url" then some table
  else if (sqlIdentifiers tbl).contains tok then none
  else some (table.filter (fun r => r.url == tok))

/-- A concrete checksum function used to instantiate the model in
witnesses: each byte is rendered as one lowercase letter. Like the md5
hexdigest it never produces a slash. -/
def natChecksum (d : ByteData) : String :=
  ⟨d.map (fun b => Char.ofNat (97 + b % 26))⟩

/- Helper lemmas. -/

theorem takeWhile_ne_of_append (sep : Char) (l r : List Char)
    (h : ∀ c ∈ l, c ≠ sep) :
    (l ++ sep :: r).takeWhile (fun c => c != sep) = l := by
  induction l with
  | nil => simp
  | cons a t ih =>
    have ha : a ≠ sep := h a (List.mem_cons_self a t)
    simp [ha, ih (fun c hc => h c (List.mem_cons_of_mem a hc))]

theorem lastPathComponent_append (s name : String)
    (h : ∀ c ∈ name.data, c ≠ '/') :
    lastPathComponent (s ++ "/" ++ name) = name := by
  have hd : (s ++ "/" ++ name).data = s.data ++ '/' :: name.data := by
    simp
  have hrev : ∀ c ∈ name.data.reverse, c ≠ '/' := by
    intro c hc
    exact h c (List.mem_reverse.mp hc)
  unfold lastPathComponent
  rw [hd]
  rw [show (s.data ++ '/' :: name.data).reverse
        = name.data.reverse ++ '/' :: s.data.reverse by simp]
  rw [takeWhile_ne_of_append '/' name.data.reverse s.data.reverse hrev]
  simp

theorem lookup_filter_ne (fs : List (String × ByteData)) (p : String) :
    ((fs.filter fun e => !(e.1 == p)).lookup p) = none := by
  induction fs with
  | nil => rfl
  | cons e t ih =>
    obtain ⟨k, v⟩ := e
    by_cases h : k = p
    · simp [List.filter_cons, h, ih]
    · simp only [List.filter_cons]
      have hk : (k == p) = false := by simp [h]
      have hpk : (p == k) = false := by simp [Ne.symm h]
      simp [hk, List.lookup, ih, hpk]

theorem find?_url_filter (l : List Row) (url : String) :
    ((l.filter fun r => !(r.url == url)).find? fun r => r.url == url) = none := by
  rw [List.find?_eq_none]
  intro x hx
  have hmem := (List.mem_filter.mp hx).2
  simpa using hmem

theorem readQuotedLiteral_append (l r : List Char)
    (h : ∀ c ∈ l, c ≠ '"') :
    readQuotedLiteral (l ++ '"' :: r) = (l, r) := by
  induction l with
  | nil => simp [readQuotedLiteral]
  | cons a t ih =>
    have ha : a ≠ '"' := h a (List.mem_cons_self a t)
    simp [readQuotedLiteral, ha, ih (fun c hc => h c (List.mem_cons_of_mem a hc))]

theorem splitOnSlash_no_slash (l : List Char) (h : ∀ c ∈ l, c ≠ '/') :
    splitOnSlash l = [l] := by
  induction l with
  | nil => rfl
  | cons a t ih =>
    have ha : a ≠ '/' := h a (List.mem_cons_self a t)
    simp [splitOnSlash, ha, ih (fun c hc => h c (List.mem_cons_of_mem a hc))]

/-- Characterization of a successful cache_put: when the data is
nonempty, the URL passes the safety predicate, no regular file sits at
the derived folder path or any of its proper ancestors, and no
directory occupies the blob path, the body runs to completion, writes
the blob at putFilePath, appends one row, and commits once. -/
theorem cache_put_success (cksum : ByteData → String) (st : CacheState)
    (url : String) (data : ByteData)
    (hne : data ≠ [])
    (hval : is_url_valid_and_safe url = true)
    (hfolder : st.fs.lookup (st.cacheRoot ++ "/" ++ restAfterScheme url) = none)
    (hpre : ∀ q ∈ folderPrefixes st.cacheRoot (restAfterScheme url),
      st.fs.lookup q = none)
    (hblob : dirExists st.fs (putFilePath cksum st url data) = false) :
    cache_put cksum st url data = some
      { st with
        fs := fsWrite st.fs (putFilePath cksum st url data) data,
        table := st.table
          ++ [⟨st.now, url, restAfterScheme url ++ "/" ++ cksum data, data.length⟩],
        commits := st.commits + 1 } := by
  have hlen : (data.length == 0) = false := by
    simp [List.length_eq_zero, hne]
  have hany : (folderPrefixes st.cacheRoot (restAfterScheme url)).any
      (fun q => (st.fs.lookup q).isSome) = false := by
    rw [List.any_eq_false]
    intro q hq
    simp [hpre q hq]
  unfold putFilePath at hblob
  unfold cache_put putFilePath
  simp [hlen, hval, hfolder, hany, hblob]

/-- Conversely, whenever cache_put succeeds on nonempty data and a safe
URL, the resulting state is exactly the written-committed one. -/
theorem cache_put_eq_some (cksum : ByteData → String) (st st2 : CacheState)
    (url : String) (data : ByteData)
    (hne : data ≠ [])
    (hval : is_url_valid_and_safe url = true)
    (hput : cache_put cksum st url data = some st2) :
    st2 = { st with
      fs := fsWrite st.fs (putFilePath cksum st url data) data,
      table := st.table
        ++ [⟨st.now, url, restAfterScheme url ++ "/" ++ cksum data, data.length⟩],
      commits := st.commits + 1 } := by
  have hlen : (data.length == 0) = false := by
    simp [List.length_eq_zero, hne]
  unfold cache_put at hput
  simp only [hlen, hval, Bool.not_true, Bool.false_eq_true, if_false] at hput
  unfold putFilePath
  split at hput
  · exact absurd hput (by simp)
  · split at hput
    · exact absurd hput (by simp)
    · split at hput
      · exact absurd hput (by simp)
      · exact (Option.some.inj hput).symm

/-- Characterization of a cache hit: when the first row for the url is
within TTL, its file exists with matching length, and (when
verify_checksum is set) the checksum matches the file name, cache_get
returns the bytes and the state — table, files, commit counter — is
returned unchanged. -/
theorem cache_get_hit (cksum : ByteData → String) (st : CacheState)
    (url : String) (r : Row) (data : ByteData) (vc : Bool)
    (hfind : st.table.find? (fun x => x.url == url) = some r)
    (httl : ¬(r.gmt_created + CACHE_VALID_DAYS * secondsPerDay < st.now))
    (hfile : st.fs.lookup (st.cacheRoot ++ "/" ++ r.file_path_relative) = some data)
    (hlen : data.length = r.file_length)
    (hcks : vc = true →
      cksum data = lastPathComponent (st.cacheRoot ++ "/" ++ r.file_path_relative)) :
    cache_get cksum st url false vc = (some data, st) := by
  have hexp : decide (r.gmt_created + CACHE_VALID_DAYS * secondsPerDay < st.now) = false :=
    decide_eq_false httl
  unfold cache_get
  rw [hfind]
  cases vc with
  | false => simp [hexp, hfile, hlen]
  | true => simp [hexp, hfile, hlen, hcks rfl]

/-- Characterization of lazy eviction in cache_get: when the first row
for the url has an existing file but is expired, has a length mismatch,
or (under verify_checksum) a checksum mismatch, cache_get deletes the
rows for the url, commits, removes the file, and reports not-found. -/
theorem cache_get_evicts (cksum : ByteData → String) (st : CacheState)
    (url : String) (r : Row) (data : ByteData) (vc : Bool)
    (hfind : st.table.find? (fun x => x.url == url) = some r)
    (hfile : st.fs.lookup (st.cacheRoot ++ "/" ++ r.file_path_relative) = some data)
    (hdrop : (r.gmt_created + CACHE_VALID_DAYS * secondsPerDay < st.now)
      ∨ data.length ≠ r.file_length
      ∨ (vc = true ∧ cksum data ≠ lastPathComponent (st.cacheRoot ++ "/" ++ r.file_path_relative))) :
    cache_get cksum st url false vc
      = (none, evict st url (st.cacheRoot ++ "/" ++ r.file_path_relative)) := by
  unfold cache_get
  rw [hfind]
  simp only [hfile, Bool.false_or]
  rcases hdrop with hexp | hbad | ⟨hvc, hbad⟩
  · simp [decide_eq_true hexp]
  · by_cases hexp : r.gmt_created + CACHE_VALID_DAYS * secondsPerDay < st.now
    · simp [decide_eq_true hexp]
    · simp [decide_eq_false hexp, hbad]
  · by_cases hexp : r.gmt_created + CACHE_VALID_DAYS * secondsPerDay < st.now
    · simp [decide_eq_true hexp]
    · by_cases hlen : data.length = r.file_length
      · simp [decide_eq_false hexp, hvc, hlen, hbad]
      · simp [decide_eq_false hexp, hlen]

/- Concrete states used to evaluate the code at specific inputs. -/

/-- A cache rooted at "p" with empty table and empty blob store. -/
def emptyState : CacheState := ⟨"p", [], [], 0, 0⟩

/-- A cache rooted at "p" where a regular file occupies the path "p/a",
so cache_put on "http://a" hits the directory assertion and raises. -/
def fileAtFolderState : CacheState := ⟨"p", [], [("p/a", [9])], 0, 0⟩

/-- A cache rooted at "p" that already has a live entry for "http://a"
(relative path "a/b" = natChecksum [1], file intact). -/
def dupState : CacheState :=
  ⟨"p", [⟨0, "http://a", "a/b", 1⟩], [("p/a/b", [1])], 0, 0⟩

/-- The state after cache_put natChecksum dupState "http://a" [3]: a
second row for the same url has been appended. -/
def dupState2 : CacheState :=
  ⟨"p", [⟨0, "http://a", "a/b", 1⟩, ⟨0, "http://a", "a/d", 1⟩],
    [("p/a/d", [3]), ("p/a/b", [1])], 0, 1⟩

/-- C1: the claim says every URL accepted by is_url_valid_and_safe
yields a derived relative path free of ".." components, so the blob
path cannot escape the cache root. The character whitelist admits both
"." and "/", so the accepted URL "http://../x" derives the relative
folder "../x", whose first path component is "..": cache_put then
creates the blob under p/../x/, outside the cache root p. This theorem
evaluates the code at that failing input. -/
theorem c1_accepted_url_escapes_cache_root :
    is_url_valid_and_safe "http://../x" = true ∧
    restAfterScheme "http://../x" = "../x" ∧
    (pathComponents (restAfterScheme "http://../x")).contains "..".data = true ∧
    cache_put natChecksum emptyState "http://../x" [1]
      = some ⟨"p", [⟨0, "http://../x", "../x/b", 1⟩], [("p/../x/b", [1])], 0, 1⟩ := by
  decide

/-- C2: the claim says the worker returns the Cache Manager permit to
the token slot for every outcome of the commit phase, including an
exception inside cache_put. In the source, the exception handler logs
and returns before the queue put, so the permit is lost: here cache_put
raises (a regular file occupies the derived folder path, failing the
directory assertion), commit_job leaves the slot empty, and any later
commit attempt finds the slot empty as well. -/
theorem c2_permit_lost_on_put_exception :
    cache_put natChecksum fileAtFolderState "http://a" [1] = none ∧
    commit_job natChecksum (some fileAtFolderState) "http://a" [1] = none ∧
    commit_job natChecksum none "http://b" [2] = none := by
  decide

/-- C3 counterexample: cache_put on a URL that already has a live entry
does not fail with a duplicate-key error — the table schema has no
uniqueness constraint on url — and afterwards two live rows carry the
same url. -/
theorem c3_counterexample_duplicate_put_succeeds :
    cache_put natChecksum dupState "http://a" [3] = some dupState2 ∧
    (dupState2.table.filter (fun r => r.url == "http://a")).length = 2 := by
  decide

/-- C3 amended: inserting a cache entry for a URL that already has a
live entry succeeds silently — the INSERT appends a second row for the
same url, so the url column is not unique after put without a prior
drop. (The filesystem hypotheses say only that the blob write itself
does not raise; they are independent of the duplication.) -/
theorem c3_amended_put_appends_even_on_duplicate (cksum : ByteData → String)
    (st : CacheState) (url : String) (data : ByteData)
    (hne : data ≠ [])
    (hval : is_url_valid_and_safe url = true)
    (hfolder : st.fs.lookup (st.cacheRoot ++ "/" ++ restAfterScheme url) = none)
    (hpre : ∀ q ∈ folderPrefixes st.cacheRoot (restAfterScheme url),
      st.fs.lookup q = none)
    (hblob : dirExists st.fs (putFilePath cksum st url data) = false) :
    ∃ st2, cache_put cksum st url data = some st2 ∧
      st2.table = st.table
        ++ [⟨st.now, url, restAfterScheme url ++ "/" ++ cksum data, data.length⟩] ∧
      (st2.table.filter (fun r => r.url == url)).length
        = (st.table.filter (fun r => r.url == url)).length + 1 := by
  refine ⟨_, cache_put_success cksum st url data hne hval hfolder hpre hblob, rfl, ?_⟩
  simp [List.filter_append]

/-- C3 amended, witnessed at a state that already holds a live entry
for the url being put. -/
theorem c3_amended_witness :
    ∃ st2, cache_put natChecksum dupState "http://a" [3] = some st2 ∧
      st2.table = dupState.table
        ++ [⟨dupState.now, "http://a",
            restAfterScheme "http://a" ++ "/" ++ natChecksum [3], 1⟩] ∧
      (st2.table.filter (fun r => r.url == "http://a")).length
        = (dupState.table.filter (fun r => r.url == "http://a")).length + 1 :=
  c3_amended_put_appends_even_on_duplicate natChecksum dupState "http://a" [3]
    (by decide) (by decide) (by decide) (by decide) (by decide)

/-- C4 counterexample: cache_get interpolates the URL into a
double-quoted token, and the claim's exact-match promise fails two
ways. A URL containing a double-quote corrupts the query structure:
the constructed SELECT and DELETE texts contain two url comparisons,
and the literal a SQL lexer reads back is "x", not the URL that was
looked up. And the quote-free URL string "url" is resolved by sqlite
as the url column itself, so the condition is true of every row — the
SELECT matches a row whose url differs from the string, and the DELETE
removes all rows — although an equality match on the string would
select none. -/
theorem c4_counterexample_quote_corrupts_query :
    sql_select_where_url "cache" "x\" OR url = \"y"
      = "SELECT * FROM cache WHERE url = \"x\" OR url = \"y\"" ∧
    sql_delete_where_url "cache" "x\" OR url = \"y"
      = "DELETE FROM cache WHERE url = \"x\" OR url = \"y\"" ∧
    readQuotedLiteral (("x\" OR url = \"y").data ++ ['"'])
      = ("x".data, (" OR url = \"y\"").data) ∧
    ("x" : String) ≠ "x\" OR url = \"y" ∧
    interpolatedWhereRows "cache" "url"
      [⟨0, "http://a", "a/b", 1⟩, ⟨5, "http://b", "b/c", 2⟩]
      = some [⟨0, "http://a", "a/b", 1⟩, ⟨5, "http://b", "b/c", 2⟩] ∧
    ([⟨0, "http://a", "a/b", 1⟩, ⟨5, "http://b", "b/c", 2⟩] : List Row).filter
      (fun r => r.url == "url") = [] := by
  decide

/-- C4 amended: the lookup and delete statements are built by string
interpolation, not parameter binding. For every URL that contains no
double-quote character and does not name an in-scope identifier — in
particular any URL accepted by is_url_valid_and_safe, which must start
with a scheme — the constructed query carries exactly the URL as its
single quoted token with nothing after the closing quote, sqlite
treats it as a string literal, and so the query matches and deletes
exactly the rows whose url column equals the string. A double-quote in
the URL terminates the token early and corrupts the query structure,
and a quote-free URL naming an identifier (such as the string "url")
is resolved as that identifier instead of as a literal (see the
counterexample). -/
theorem c4_amended_quote_free_nonidentifier_urls_match_exactly
    (tbl url : String) (table : List Row)
    (hq : ∀ c ∈ url.data, c ≠ '"')
    (hid : (sqlIdentifiers tbl).contains url = false) :
    (sql_select_where_url tbl url).data
      = ("SELECT * FROM " ++ tbl ++ " WHERE url = \"").data ++ (url.data ++ ['"']) ∧
    (sql_delete_where_url tbl url).data
      = ("DELETE FROM " ++ tbl ++ " WHERE url = \"").data ++ (url.data ++ ['"']) ∧
    readQuotedLiteral (url.data ++ ['"']) = (url.data, []) ∧
    interpolatedWhereRows tbl url table
      = some (table.filter (fun r => r.url == url)) ∧
    (is_url_valid_and_safe url = true →
      (sqlIdentifiers "cache").contains url = false) := by
  have hnu : (url == "url") = false := by
    by_cases h : url = "url"
    · subst h
      simp [sqlIdentifiers] at hid
    · simp [h]
  refine ⟨by simp [sql_select_where_url], by simp [sql_delete_where_url],
    readQuotedLiteral_append url.data [] hq, ?_, ?_⟩
  · have hid2 : url ∉ sqlIdentifiers tbl := by simpa using hid
    simp [interpolatedWhereRows, hnu, hid2]
  · intro hval
    have h1 : url ≠ "cache" := by rintro rfl; exact absurd hval (by decide)
    have h2 : url ≠ "ID" := by rintro rfl; exact absurd hval (by decide)
    have h3 : url ≠ "gmt_created" := by rintro rfl; exact absurd hval (by decide)
    have h4 : url ≠ "url" := by rintro rfl; exact absurd hval (by decide)
    have h5 : url ≠ "file_path_relative" := by rintro rfl; exact absurd hval (by decide)
    have h6 : url ≠ "file_length" := by rintro rfl; exact absurd hval (by decide)
    simp [sqlIdentifiers, h1, h2, h3, h4, h5, h6]

/-- C4 amended, witnessed at a concrete quote-free non-identifier URL
over a concrete two-row table. -/
theorem c4_amended_witness :
    (sql_select_where_url "cache" "http://a").data
      = ("SELECT * FROM " ++ "cache" ++ " WHERE url = \"").data
        ++ (("http://a").data ++ ['"']) ∧
    (sql_delete_where_url "cache" "http://a").data
      = ("DELETE FROM " ++ "cache" ++ " WHERE url = \"").data
        ++ (("http://a").data ++ ['"']) ∧
    readQuotedLiteral (("http://a").data ++ ['"']) = (("http://a").data, []) ∧
    interpolatedWhereRows "cache" "http://a"
      [⟨0, "http://a", "a/b", 1⟩, ⟨5, "http://b", "b/c", 2⟩]
      = some (([⟨0, "http://a", "a/b", 1⟩, ⟨5, "http://b", "b/c", 2⟩] : List Row).filter
          (fun r => r.url == "http://a")) ∧
    (is_url_valid_and_safe "http://a" = true →
      (sqlIdentifiers "cache").contains "http://a" = false) :=
  c4_amended_quote_free_nonidentifier_urls_match_exactly "cache" "http://a"
    [⟨0, "http://a", "a/b", 1⟩, ⟨5, "http://b", "b/c", 2⟩]
    (by decide) (by decide)

/-- C5: for a URL accepted by is_url_valid_and_safe and a non-empty
byte payload, cache_put(url, data) followed immediately by
cache_get(url) returns exactly data. Stated from a state with no live
row for the url (the bootstrap only calls put for URLs that missed the
cache; a pre-existing row would be a duplicate-put caller error, see
C3), no stray regular file at the derived folder path or at any of its
proper ancestors (else os.makedirs raises), no existing directory at
the blob path (else the open raises), and a checksum containing no
slash (md5 hexdigests never do). -/
theorem c5_put_then_get_round_trip (cksum : ByteData → String)
    (st : CacheState) (url : String) (data : ByteData)
    (hval : is_url_valid_and_safe url = true)
    (hne : data ≠ [])
    (hnew : st.table.find? (fun r => r.url == url) = none)
    (hfolder : st.fs.lookup (st.cacheRoot ++ "/" ++ restAfterScheme url) = none)
    (hpre : ∀ q ∈ folderPrefixes st.cacheRoot (restAfterScheme url),
      st.fs.lookup q = none)
    (hblob : dirExists st.fs (putFilePath cksum st url data) = false)
    (hck : ∀ c ∈ (cksum data).data, c ≠ '/') :
    ∃ st2, cache_put cksum st url data = some st2 ∧
      (cache_get cksum st2 url false true).1 = some data := by
  refine ⟨_, cache_put_success cksum st url data hne hval hfolder hpre hblob, ?_⟩
  have hpath : st.cacheRoot ++ "/" ++ (restAfterScheme url ++ "/" ++ cksum data)
      = putFilePath cksum st url data := by
    simp [putFilePath, String.append_assoc]
  have hname : lastPathComponent (putFilePath cksum st url data) = cksum data := by
    unfold putFilePath
    exact lastPathComponent_append (st.cacheRoot ++ "/" ++ restAfterScheme url)
      (cksum data) hck
  have hhit := cache_get_hit cksum
    { st with
      fs := fsWrite st.fs (putFilePath cksum st url data) data,
      table := st.table
        ++ [⟨st.now, url, restAfterScheme url ++ "/" ++ cksum data, data.length⟩],
      commits := st.commits + 1 }
    url ⟨st.now, url, restAfterScheme url ++ "/" ++ cksum data, data.length⟩ data true
    (by simp [List.find?_append, hnew])
    (by show ¬(st.now + CACHE_VALID_DAYS * secondsPerDay < st.now)
        omega)
    (by show (fsWrite st.fs (putFilePath cksum st url data) data).lookup
          (st.cacheRoot ++ "/" ++ (restAfterScheme url ++ "/" ++ cksum data)) = some data
        rw [hpath]
        simp [fsWrite])
    rfl
    (fun _ => by
      show cksum data
        = lastPathComponent (st.cacheRoot ++ "/" ++ (restAfterScheme url ++ "/" ++ cksum data))
      rw [hpath, hname])
  rw [hhit]

/-- C5, witnessed at a concrete URL and payload on an empty cache. -/
theorem c5_witness :
    ∃ st2, cache_put natChecksum emptyState "http://a" [1] = some st2 ∧
      (cache_get natChecksum st2 "http://a" false true).1 = some [1] :=
  c5_put_then_get_round_trip natChecksum emptyState "http://a" [1]
    (by decide) (by decide) (by decide) (by decide) (by decide) (by decide)
    (by decide)

/-- C6: after cache_put(url, data) the stored file's name equals the
checksum of data; corrupting the stored bytes in place without changing
their length makes cache_get with verify_checksum=true report not-found
and evict the entry (the url rows are deleted and the file is removed),
while cache_get with verify_checksum=false returns the corrupted bytes.
st2 is the post-put state and st3 the state after the on-disk
corruption replaces the blob with data2. -/
theorem c6_checksum_integrity (cksum : ByteData → String)
    (st st2 st3 : CacheState) (url : String) (data data2 : ByteData)
    (hval : is_url_valid_and_safe url = true)
    (hne : data ≠ [])
    (hnew : st.table.find? (fun r => r.url == url) = none)
    (hfolder : st.fs.lookup (st.cacheRoot ++ "/" ++ restAfterScheme url) = none)
    (hck : ∀ c ∈ (cksum data).data, c ≠ '/')
    (hlen : data2.length = data.length)
    (hdiff : cksum data2 ≠ cksum data)
    (hput : cache_put cksum st url data = some st2)
    (hcorrupt : st3
      = { st2 with fs := fsWrite st2.fs (putFilePath cksum st url data) data2 }) :
    lastPathComponent (putFilePath cksum st url data) = cksum data ∧
    st2.fs.lookup (putFilePath cksum st url data) = some data ∧
    (cache_get cksum st3 url false false).1 = some data2 ∧
    cache_get cksum st3 url false true
      = (none, evict st3 url (putFilePath cksum st url data)) ∧
    ((evict st3 url (putFilePath cksum st url data)).table.find?
      (fun x => x.url == url)) = none ∧
    ((evict st3 url (putFilePath cksum st url data)).fs.lookup
      (putFilePath cksum st url data)) = none := by
  have hst2 := cache_put_eq_some cksum st st2 url data hne hval hput
  subst hst2
  subst hcorrupt
  have hpath : st.cacheRoot ++ "/" ++ (restAfterScheme url ++ "/" ++ cksum data)
      = putFilePath cksum st url data := by
    simp [putFilePath, String.append_assoc]
  have hname : lastPathComponent (putFilePath cksum st url data) = cksum data := by
    unfold putFilePath
    exact lastPathComponent_append (st.cacheRoot ++ "/" ++ restAfterScheme url)
      (cksum data) hck
  have hfind :
      (st.table
        ++ [(⟨st.now, url, restAfterScheme url ++ "/" ++ cksum data, data.length⟩ : Row)]).find?
        (fun x => x.url == url)
      = some (⟨st.now, url, restAfterScheme url ++ "/" ++ cksum data, data.length⟩ : Row) := by
    simp [List.find?_append, hnew]
  refine ⟨hname, by simp [fsWrite], ?_, ?_, ?_, ?_⟩
  · have hhit := cache_get_hit cksum
      { st with
        fs := fsWrite (fsWrite st.fs (putFilePath cksum st url data) data)
          (putFilePath cksum st url data) data2,
        table := st.table
          ++ [⟨st.now, url, restAfterScheme url ++ "/" ++ cksum data, data.length⟩],
        commits := st.commits + 1 }
      url ⟨st.now, url, restAfterScheme url ++ "/" ++ cksum data, data.length⟩ data2 false
      hfind
      (by show ¬(st.now + CACHE_VALID_DAYS * secondsPerDay < st.now)
          omega)
      (by show (fsWrite (fsWrite st.fs (putFilePath cksum st url data) data)
            (putFilePath cksum st url data) data2).lookup
            (st.cacheRoot ++ "/" ++ (restAfterScheme url ++ "/" ++ cksum data)) = some data2
          rw [hpath]
          simp [fsWrite])
      hlen
      (fun hvc => absurd hvc (by decide))
    rw [hhit]
  · have hev := cache_get_evicts cksum
      { st with
        fs := fsWrite (fsWrite st.fs (putFilePath cksum st url data) data)
          (putFilePath cksum st url data) data2,
        table := st.table
          ++ [⟨st.now, url, restAfterScheme url ++ "/" ++ cksum data, data.length⟩],
        commits := st.commits + 1 }
      url ⟨st.now, url, restAfterScheme url ++ "/" ++ cksum data, data.length⟩ data2 true
      hfind
      (by show (fsWrite (fsWrite st.fs (putFilePath cksum st url data) data)
            (putFilePath cksum st url data) data2).lookup
            (st.cacheRoot ++ "/" ++ (restAfterScheme url ++ "/" ++ cksum data)) = some data2
          rw [hpath]
          simp [fsWrite])
      (Or.inr (Or.inr ⟨rfl, by
        show cksum data2
          ≠ lastPathComponent (st.cacheRoot ++ "/" ++ (restAfterScheme url ++ "/" ++ cksum data))
        rw [hpath, hname]
        exact hdiff⟩))
    rw [show (({ st with
        fs := fsWrite (fsWrite st.fs (putFilePath cksum st url data) data)
          (putFilePath cksum st url data) data2,
        table := st.table
          ++ [⟨st.now, url, restAfterScheme url ++ "/" ++ cksum data, data.length⟩],
        commits := st.commits + 1 } : CacheState).cacheRoot ++ "/"
          ++ (restAfterScheme url ++ "/" ++ cksum data))
        = putFilePath cksum st url data from hpath] at hev
    exact hev
  · exact find?_url_filter _ url
  · exact lookup_filter_ne _ _

/-- C6, witnessed: put [1] (checksum "b") at "http://a", corrupt the
blob to [2] (same length, checksum "c"), then get both ways. -/
theorem c6_witness :
    lastPathComponent (putFilePath natChecksum emptyState "http://a" [1])
      = natChecksum [1] ∧
    (⟨"p", [⟨0, "http://a", "a/b", 1⟩], [("p/a/b", [1])], 0, 1⟩ : CacheState).fs.lookup
      (putFilePath natChecksum emptyState "http://a" [1]) = some [1] ∧
    (cache_get natChecksum
      ⟨"p", [⟨0, "http://a", "a/b", 1⟩], [("p/a/b", [2])], 0, 1⟩
      "http://a" false false).1 = some [2] ∧
    cache_get natChecksum
      ⟨"p", [⟨0, "http://a", "a/b", 1⟩], [("p/a/b", [2])], 0, 1⟩
      "http://a" false true
      = (none, evict ⟨"p", [⟨0, "http://a", "a/b", 1⟩], [("p/a/b", [2])], 0, 1⟩
          "http://a" (putFilePath natChecksum emptyState "http://a" [1])) ∧
    ((evict ⟨"p", [⟨0, "http://a", "a/b", 1⟩], [("p/a/b", [2])], 0, 1⟩
        "http://a" (putFilePath natChecksum emptyState "http://a" [1])).table.find?
      (fun x => x.url == "http://a")) = none ∧
    ((evict ⟨"p", [⟨0, "http://a", "a/b", 1⟩], [("p/a/b", [2])], 0, 1⟩
        "http://a" (putFilePath natChecksum emptyState "http://a" [1])).fs.lookup
      (putFilePath natChecksum emptyState "http://a" [1])) = none :=
  c6_checksum_integrity natChecksum emptyState
    ⟨"p", [⟨0, "http://a", "a/b", 1⟩], [("p/a/b", [1])], 0, 1⟩
    ⟨"p", [⟨0, "http://a", "a/b", 1⟩], [("p/a/b", [2])], 0, 1⟩
    "http://a" [1] [2]
    (by decide) (by decide) (by decide) (by decide) (by decide) (by decide)
    (by decide) (by decide) (by decide)

/-- C7: an index entry whose gmt_created lies more than CACHE_VALID_DAYS
days before the current UTC time is evicted by cache_get — the rows for
the url are deleted and the backing file removed — and reported as
not-found, even though the file exists with matching length and
checksum. -/
theorem c7_expired_entry_evicted (cksum : ByteData → String)
    (st : CacheState) (url : String) (r : Row) (data : ByteData)
    (hfind : st.table.find? (fun x => x.url == url) = some r)
    (hexp : r.gmt_created + CACHE_VALID_DAYS * secondsPerDay < st.now)
    (hfile : st.fs.lookup (st.cacheRoot ++ "/" ++ r.file_path_relative) = some data)
    (hlen : data.length = r.file_length)
    (hcks : cksum data = lastPathComponent (st.cacheRoot ++ "/" ++ r.file_path_relative)) :
    cache_get cksum st url false true
      = (none, evict st url (st.cacheRoot ++ "/" ++ r.file_path_relative)) ∧
    ((evict st url (st.cacheRoot ++ "/" ++ r.file_path_relative)).table.find?
      (fun x => x.url == url)) = none ∧
    ((evict st url (st.cacheRoot ++ "/" ++ r.file_path_relative)).fs.lookup
      (st.cacheRoot ++ "/" ++ r.file_path_relative)) = none :=
  ⟨cache_get_evicts cksum st url r data true hfind hfile (Or.inl hexp),
    find?_url_filter _ url, lookup_filter_ne _ _⟩

/-- C7, witnessed: entry created at time 0, current time 4 days later
(TTL is 3 days), file intact with matching length and checksum. -/
theorem c7_witness :
    cache_get natChecksum
      ⟨"p", [⟨0, "http://a", "a/b", 1⟩], [("p/a/b", [1])], 345600, 0⟩
      "http://a" false true
      = (none, evict ⟨"p", [⟨0, "http://a", "a/b", 1⟩], [("p/a/b", [1])], 345600, 0⟩
          "http://a" (("p" : String) ++ "/" ++ "a/b")) ∧
    ((evict ⟨"p", [⟨0, "http://a", "a/b", 1⟩], [("p/a/b", [1])], 345600, 0⟩
        "http://a" (("p" : String) ++ "/" ++ "a/b")).table.find?
      (fun x => x.url == "http://a")) = none ∧
    ((evict ⟨"p", [⟨0, "http://a", "a/b", 1⟩], [("p/a/b", [1])], 345600, 0⟩
        "http://a" (("p" : String) ++ "/" ++ "a/b")).fs.lookup
      (("p" : String) ++ "/" ++ "a/b")) = none :=
  c7_expired_entry_evicted natChecksum
    ⟨"p", [⟨0, "http://a", "a/b", 1⟩], [("p/a/b", [1])], 345600, 0⟩
    "http://a" ⟨0, "http://a", "a/b", 1⟩ [1]
    (by decide) (by decide) (by decide) (by decide) (by decide)

/-- C9: when the first row for the url passes every freshness check —
TTL not expired, file present, length matching, checksum matching —
cache_get with default arguments returns the stored bytes and the
resulting state equals the input state: no row is deleted, no file is
removed, and the commit counter is unchanged (no commit issued). -/
theorem c9_fresh_hit_leaves_state_unchanged (cksum : ByteData → String)
    (st : CacheState) (url : String) (r : Row) (data : ByteData)
    (hfind : st.table.find? (fun x => x.url == url) = some r)
    (httl : ¬(r.gmt_created + CACHE_VALID_DAYS * secondsPerDay < st.now))
    (hfile : st.fs.lookup (st.cacheRoot ++ "/" ++ r.file_path_relative) = some data)
    (hlen : data.length = r.file_length)
    (hcks : cksum data = lastPathComponent (st.cacheRoot ++ "/" ++ r.file_path_relative)) :
    cache_get cksum st url false true = (some data, st) :=
  cache_get_hit cksum st url r data true hfind httl hfile hlen (fun _ => hcks)

/-- C9, witnessed on a fresh intact entry. -/
theorem c9_witness :
    cache_get natChecksum dupState "http://a" false true = (some [1], dupState) :=
  c9_fresh_hit_leaves_state_unchanged natChecksum dupState "http://a"
    ⟨0, "http://a", "a/b", 1⟩ [1]
    (by decide) (by decide) (by decide) (by decide) (by decide)

/-- C8: for a job whose every fetch attempt fails at the transport
level, the retry loop (counter initialized to 5, decremented per
failure) issues exactly 5 attempts and then raises the fatal
RuntimeError that terminates the worker loop; the worker never reaches
commit_job, so the cache-manager slot — and with it the cache — is left
untouched and the URL is never committed. -/
theorem c8_retry_exhaustion (cksum : ByteData → String)
    (outcome : Nat → FetchOutcome) (slot : Option CacheState) (url : String)
    (h : ∀ n, outcome n = FetchOutcome.failure) :
    fetch_with_retries outcome 5 0 = Except.error 5 ∧
    process_job cksum outcome slot url = (Except.error 5, slot) := by
  have hfn : outcome = fun _ => FetchOutcome.failure := funext h
  subst hfn
  exact ⟨rfl, rfl⟩

/-- C8, witnessed with the always-failing outcome oracle. -/
theorem c8_witness :
    fetch_with_retries (fun _ => FetchOutcome.failure) 5 0 = Except.error 5 ∧
    process_job natChecksum (fun _ => FetchOutcome.failure) (some emptyState) "http://a"
      = (Except.error 5, some emptyState) :=
  c8_retry_exhaustion natChecksum (fun _ => FetchOutcome.failure) (some emptyState)
    "http://a" (fun _ => rfl)

/-- C10: is_url_valid_and_safe accepts the bare-scheme strings
"http://" and "https://" (the character loop is vacuous on the empty
remainder), so cache_put derives an empty relative folder: the row's
relative path is "" + "/" + checksum, whose directory part is the empty
component, and the blob lands at (root + "/" + "") + "/" + checksum —
directly under the cache root rather than in a per-URL subdirectory. -/
theorem c10_bare_scheme_accepted_blob_in_root (cksum : ByteData → String)
    (st : CacheState) (data : ByteData)
    (hne : data ≠ [])
    (hfolder : st.fs.lookup (st.cacheRoot ++ "/" ++ "") = none)
    (hblob : dirExists st.fs ((st.cacheRoot ++ "/" ++ "") ++ "/" ++ cksum data) = false)
    (hck : ∀ c ∈ (cksum data).data, c ≠ '/') :
    is_url_valid_and_safe "http://" = true ∧
    is_url_valid_and_safe "https://" = true ∧
    restAfterScheme "http://" = "" ∧
    restAfterScheme "https://" = "" ∧
    pathComponents ("" ++ "/" ++ cksum data) = [[], (cksum data).data] ∧
    ∃ st2, cache_put cksum st "http://" data = some st2 ∧
      st2.table = st.table
        ++ [⟨st.now, "http://", "" ++ "/" ++ cksum data, data.length⟩] ∧
      st2.fs.lookup ((st.cacheRoot ++ "/" ++ "") ++ "/" ++ cksum data) = some data := by
  have hrest : restAfterScheme "http://" = "" := by decide
  have hcomp : pathComponents ("" ++ "/" ++ cksum data) = [[], (cksum data).data] := by
    unfold pathComponents
    rw [show ("" ++ "/" ++ cksum data).data = '/' :: (cksum data).data by simp]
    rw [show splitOnSlash ('/' :: (cksum data).data)
          = [] :: splitOnSlash (cksum data).data by simp [splitOnSlash]]
    rw [splitOnSlash_no_slash (cksum data).data hck]
  have hfolder2 : st.fs.lookup (st.cacheRoot ++ "/" ++ restAfterScheme "http://") = none := by
    rw [hrest]
    exact hfolder
  have hpre : ∀ q ∈ folderPrefixes st.cacheRoot (restAfterScheme "http://"),
      st.fs.lookup q = none := by
    intro q hq
    rw [hrest] at hq
    simp [folderPrefixes] at hq
  have hblob2 : dirExists st.fs (putFilePath cksum st "http://" data) = false := by
    unfold putFilePath
    rw [hrest]
    exact hblob
  have hput := cache_put_success cksum st "http://" data hne (by decide) hfolder2
    hpre hblob2
  refine ⟨by decide, by decide, hrest, by decide, hcomp, _, hput, ?_, ?_⟩
  · rw [hrest]
  · show (fsWrite st.fs (putFilePath cksum st "http://" data) data).lookup
      ((st.cacheRoot ++ "/" ++ "") ++ "/" ++ cksum data) = some data
    rw [show (st.cacheRoot ++ "/" ++ "") ++ "/" ++ cksum data
          = putFilePath cksum st "http://" data by rw [putFilePath, hrest]]
    simp [fsWrite]

/-- C10, witnessed on an empty cache with payload [1]. -/
theorem c10_witness :
    is_url_valid_and_safe "http://" = true ∧
    is_url_valid_and_safe "https://" = true ∧
    restAfterScheme "http://" = "" ∧
    restAfterScheme "https://" = "" ∧
    pathComponents ("" ++ "/" ++ natChecksum [1]) = [[], (natChecksum [1]).data] ∧
    ∃ st2, cache_put natChecksum emptyState "http://" [1] = some st2 ∧
      st2.table = emptyState.table
        ++ [⟨emptyState.now, "http://", "" ++ "/" ++ natChecksum [1], 1⟩] ∧
      st2.fs.lookup ((emptyState.cacheRoot ++ "/" ++ "") ++ "/" ++ natChecksum [1])
        = some [1] :=
  c10_bare_scheme_accepted_blob_in_root natChecksum emptyState [1]
    (by decide) (by decide) (by decide) (by decide)

end BatchDownload
